import Mathlib

/-!
# Verification of `keras/layers/recurrent.py`

A shallow embedding of the recurrent-layer module: the attention scorer
(`compute_attention`), the cell abstraction (`SimpleRNNCell`, `GRUCell`,
`LSTMCell`), cell stacking (`StackedRNNCells`), and the control flow of the
`RNN` wrapper (`call`, `reset_states`) and of the attentional variant
`AttLSTMCond2Inputs.step`.

Tensors are modelled per batch sample: a rank-1 tensor (a feature vector) is a
`List ℚ`; a rank-2 tensor whose leading axis is time is a `List (List ℚ)`.
A weight matrix is stored as its list of *columns*, so that the backend
operation `K.dot(x, W)` (vector-matrix product) becomes a map of per-column
dot products, and the column slicing `W[:, a:b]` used for gate sub-matrices
becomes `List.drop`/`List.take` on the column list.

Python exceptions are modelled by an explicit error type threaded through
`Except`; functions that cannot raise stay pure.
-/

namespace KerasRecurrent

/-- A rank-1 tensor (one batch row): a vector of rationals. -/
abbrev Vec := List ℚ

/-- A weight matrix, stored as the list of its columns (each a `Vec` over the
input dimension).  `K.dot(x, W)` maps the dot product with `x` over columns,
and `W[:, a:b]` is `drop`/`take` on this list. -/
abbrev Mat := List Vec

/-- Dot product of two vectors (`K.dot_product` on rank-1 arguments). -/
def dotVec (x y : Vec) : ℚ := (List.zipWith (· * ·) x y).sum

/-- `K.dot(x, W)`: vector-matrix product, one dot product per column of `W`. -/
def matVec (x : Vec) (W : Mat) : Vec := W.map (dotVec x)

/-- Elementwise addition (also `K.bias_add` on a matching-shape bias). -/
def addVec (x y : Vec) : Vec := List.zipWith (· + ·) x y

/-- Elementwise (Hadamard) product, e.g. applying a dropout mask. -/
def mulVec (x y : Vec) : Vec := List.zipWith (· * ·) x y

/-- Scalar multiple of a vector. -/
def smulVec (a : ℚ) (x : Vec) : Vec := x.map (a * ·)

/-- Elementwise `1 - z`, as in the GRU update-gate mix `(1 - z) * hh`. -/
def oneMinus (z : Vec) : Vec := z.map (1 - ·)

/-- Python exceptions raised by this module, tagged by their Python class. -/
inductive PyError where
  | valueError (msg : String)
  | attributeError (msg : String)
  | notImplementedError (msg : String)
  | nameError (name : String)
  deriving DecidableEq

/-- Modelled from the spec: §7's error taxonomy groups every eagerly raised
configuration failure of this module (malformed cell, mismatched state counts,
unroll without static length, unsupported attention mode, stateful layer
without static batch size) under the single name **ConfigurationError**.  In
the source these are raised as `ValueError` or `NotImplementedError`; the
predicate marks exactly those two Python classes as configuration errors. -/
def PyError.isConfigurationError : PyError → Bool
  | .valueError _ => true
  | .notImplementedError _ => true
  | _ => false

/-! ## Attention scorer (`compute_attention`, lines 25-92) -/

/-- Modelled from the spec: the tensor backend consumed by the scorer
(§6, "elementwise add/multiply/tanh/sigmoid, ..., a softmax").  `tanh` is the
backend's hyperbolic tangent, kept abstract; `kexp` is the weight function of
the backend's softmax (`exp` in `K.softmax`, per the docstring formula
`alpha_i = exp(e_i) / Σ_j exp(e_j)`), kept abstract; theorems assume of it
only strict positivity, which `exp` satisfies. -/
structure Backend where
  tanh : ℚ → ℚ
  kexp : ℚ → ℚ

/-- Modelled from the spec: `K.softmax` over the time axis, as the docstring
formula `alpha_i = exp(e_i) / Σ_j exp(e_j)` with `exp` generalized to the
backend weight function `f`. -/
def softmax (f : ℚ → ℚ) (e : List ℚ) : List ℚ :=
  e.map (fun x => f x / (e.map f).sum)

/-- `K.sum(context * alphas[:, :, None], axis=1)`: the weighted sum of the
rows of `context` with weights `alphas`. -/
def weightedSum (alphas : List ℚ) (context : List Vec) : Vec :=
  (List.zipWith smulVec alphas context).foldr addVec
    (List.replicate (context.headD []).length 0)

/-- The `attention_mode` argument: the strings `'add'`/`'bahdanau'`/`'dot'`/
`'luong'`, a callable with the documented eight-argument signature returning
the scores, or any other string. -/
inductive AttentionMode where
  | add
  | bahdanau
  | dot
  | luong
  | custom (f : Vec → List Vec → List Vec → List Vec → Mat → Vec → Vec →
      Option (List ℚ) → List ℚ)
  | other (name : String)

/-- `compute_attention` (lines 25-92), per batch sample.  `pctx_` and
`context` are time-major lists of rows; `mask_context` is `some m` for a
rank-2 mask (one entry per time step) and `none` for the scalar placeholder
(the `K.ndim(mask_context) > 1` guard); `bias_ca` has one entry per context
time step (shape `(context_steps,)`). -/
def compute_attention (B : Backend) (h_tm1 : Vec) (pctx_ : List Vec)
    (context : List Vec) (att_dp_mask : List Vec)
    (attention_recurrent_kernel : Mat) (attention_context_wa : Vec)
    (bias_ca : Vec) (mask_context : Option (List ℚ))
    (attention_mode : AttentionMode) : Except PyError (Vec × List ℚ) := do
  let p_state_ := matVec (mulVec h_tm1 (att_dp_mask.getD 0 []))
      attention_recurrent_kernel
  let e ← match attention_mode with
    | .add | .bahdanau =>
        let pctx' := pctx_.map (fun row => (addVec row p_state_).map B.tanh)
        pure (addVec (pctx'.map (fun row => dotVec row attention_context_wa))
          bias_ca)
    | .dot | .luong =>
        pure (pctx_.map (fun row => dotVec p_state_ row))
    | .custom f =>
        pure (f h_tm1 pctx_ context att_dp_mask attention_recurrent_kernel
          attention_context_wa bias_ca mask_context)
    | .other s =>
        Except.error (.notImplementedError
          ("The attention mode " ++ s ++ " is not implemented."))
  let e := match mask_context with
    | some m => List.zipWith (· * ·) m e
    | none => e
  let alphas := softmax B.kexp e
  let ctx_ := weightedSum alphas context
  pure (ctx_, alphas)

/-- Sum of the attention weights restricted to the valid (mask `≠ 0`)
positions of the time axis. -/
def sumOverValid (mask alphas : List ℚ) : ℚ :=
  (List.zipWith (fun m a => if m = 0 then 0 else a) mask alphas).sum

/-! ## Cell stacking (`StackedRNNCells`, lines 95-191) -/

/-- A cell's `state_size` attribute: a single integer, or a list/tuple of
integers — the `hasattr(cell.state_size, '__len__')` dichotomy. -/
inductive StateSize where
  | single (n : ℕ)
  | multiple (ns : List ℕ)
  deriving DecidableEq

/-- The sizes a `state_size` contributes to a flat size list: `list(...)` for
a list-like `state_size`, a one-element append for a single integer. -/
def StateSize.components : StateSize → List ℕ
  | .single n => [n]
  | .multiple ns => ns

/-- How many entries of a flat state list belong to a cell:
`len(cell.state_size)` for a list-like `state_size`, one otherwise. -/
def StateSize.numStates : StateSize → ℕ
  | .single _ => 1
  | .multiple ns => ns.length

/-- The cell contract consumed by `StackedRNNCells`: a `state_size` attribute
and a `call(inputs, states) -> (output, new_states)` method, over an abstract
tensor type `α`. -/
structure RNNCell (α : Type) where
  state_size : StateSize
  call : α → List α → α × List α

/-- `StackedRNNCells.state_size` (lines 129-144): iterate the cells in
*reversed* order, appending each cell's size components. -/
def stackedStateSize (cells : List (RNNCell α)) : List ℕ :=
  (cells.reverse.map (fun c => c.state_size.components)).flatten

/-- The partition loop of `StackedRNNCells.call` (lines 147-155): walk the
given cell list (already reversed by the caller), giving each cell the next
`numStates` entries of the flat state list. -/
def partitionStates : List (RNNCell α) → List α → List (List α)
  | [], _ => []
  | c :: cs, states =>
      states.take c.state_size.numStates ::
        partitionStates cs (states.drop c.state_size.numStates)

/-- The forward loop of `StackedRNNCells.call` (lines 158-167): call the
cells in order, each consuming the previous cell's output, collecting the
per-cell new states. -/
def forwardCalls : List (RNNCell α) → List (List α) → α → α × List (List α)
  | [], _, inputs => (inputs, [])
  | c :: cs, sts, inputs =>
      let (out, ns) := c.call inputs (sts.headD [])
      let (finalOut, rest) := forwardCalls cs sts.tail out
      (finalOut, ns :: rest)

/-- `StackedRNNCells.call` (lines 146-174): partition the incoming flat state
list per reversed cell order, un-reverse, run the cells forward, and
re-flatten the new states in reversed cell order. -/
def stackedCall (cells : List (RNNCell α)) (inputs : α) (states : List α) :
    α × List α :=
  let nested_states := (partitionStates cells.reverse states).reverse
  let (out, new_nested_states) := forwardCalls cells nested_states inputs
  (out, new_nested_states.reverse.flatten)

/-! ## GRU cell (`GRUCell`, lines 1224-1527) -/

/-- `GRUCell` after `build`: configuration plus the built weights.  `kernel`
has `3 * units` columns over the input dimension, `recurrent_kernel` has
`3 * units` columns over `units`; `input_bias`/`recurrent_bias` are the two
bias rows (`recurrent_bias` is only used when `reset_after`). -/
structure GRUCell where
  units : ℕ
  activation : ℚ → ℚ
  recurrent_activation : ℚ → ℚ
  use_bias : Bool
  reset_after : Bool
  implementation : ℕ
  dropout : ℚ
  recurrent_dropout : ℚ
  kernel : Mat
  recurrent_kernel : Mat
  input_bias : Vec
  recurrent_bias : Vec

/-- `self.kernel_z = self.kernel[:, :self.units]` (line 1365). -/
def GRUCell.kernel_z (c : GRUCell) : Mat := c.kernel.take c.units

/-- `self.kernel_r = self.kernel[:, self.units: self.units * 2]` (line 1368). -/
def GRUCell.kernel_r (c : GRUCell) : Mat := (c.kernel.drop c.units).take c.units

/-- `self.kernel_h = self.kernel[:, self.units * 2:]` (line 1371). -/
def GRUCell.kernel_h (c : GRUCell) : Mat := c.kernel.drop (2 * c.units)

/-- `self.recurrent_kernel_z` (line 1366). -/
def GRUCell.recurrent_kernel_z (c : GRUCell) : Mat :=
  c.recurrent_kernel.take c.units

/-- `self.recurrent_kernel_r` (line 1369). -/
def GRUCell.recurrent_kernel_r (c : GRUCell) : Mat :=
  (c.recurrent_kernel.drop c.units).take c.units

/-- `self.recurrent_kernel_h` (line 1372). -/
def GRUCell.recurrent_kernel_h (c : GRUCell) : Mat :=
  c.recurrent_kernel.drop (2 * c.units)

/-- `self.input_bias_z` (line 1376). -/
def GRUCell.input_bias_z (c : GRUCell) : Vec := c.input_bias.take c.units

/-- `self.input_bias_r` (line 1377). -/
def GRUCell.input_bias_r (c : GRUCell) : Vec :=
  (c.input_bias.drop c.units).take c.units

/-- `self.input_bias_h` (line 1378). -/
def GRUCell.input_bias_h (c : GRUCell) : Vec := c.input_bias.drop (2 * c.units)

/-- `self.recurrent_bias_z` (line 1381). -/
def GRUCell.recurrent_bias_z (c : GRUCell) : Vec := c.recurrent_bias.take c.units

/-- `self.recurrent_bias_r` (line 1382). -/
def GRUCell.recurrent_bias_r (c : GRUCell) : Vec :=
  (c.recurrent_bias.drop c.units).take c.units

/-- `self.recurrent_bias_h` (line 1383). -/
def GRUCell.recurrent_bias_h (c : GRUCell) : Vec :=
  c.recurrent_bias.drop (2 * c.units)

/-- `GRUCell.call` (lines 1394-1506), per batch sample, with the dropout masks
(the `count=3` lists produced by `_generate_dropout_mask`) passed explicitly.
Each branch returns `(z, hh, h_mix)` where `h_mix` is the value the Python
local `h_tm1` holds when the final line `h = z * h_tm1 + (1 - z) * hh`
(line 1500) runs: implementation mode 2 rebinds `h_tm1` to its dropped value
(`h_tm1 *= rec_dp_mask[0]`, line 1473) while mode 1 does not. -/
def GRUCell.call (c : GRUCell) (inputs h_tm1 : Vec)
    (dp_mask rec_dp_mask : List Vec) : Vec × List Vec :=
  let (z, hh, h_mix) :=
    if c.implementation = 1 then
      let inputs_z := if 0 < c.dropout ∧ c.dropout < 1 then
          mulVec inputs (dp_mask.getD 0 []) else inputs
      let inputs_r := if 0 < c.dropout ∧ c.dropout < 1 then
          mulVec inputs (dp_mask.getD 1 []) else inputs
      let inputs_h := if 0 < c.dropout ∧ c.dropout < 1 then
          mulVec inputs (dp_mask.getD 2 []) else inputs
      let x_z := matVec inputs_z c.kernel_z
      let x_r := matVec inputs_r c.kernel_r
      let x_h := matVec inputs_h c.kernel_h
      let x_z := if c.use_bias then addVec x_z c.input_bias_z else x_z
      let x_r := if c.use_bias then addVec x_r c.input_bias_r else x_r
      let x_h := if c.use_bias then addVec x_h c.input_bias_h else x_h
      let h_tm1_z := if 0 < c.recurrent_dropout ∧ c.recurrent_dropout < 1 then
          mulVec h_tm1 (rec_dp_mask.getD 0 []) else h_tm1
      let h_tm1_r := if 0 < c.recurrent_dropout ∧ c.recurrent_dropout < 1 then
          mulVec h_tm1 (rec_dp_mask.getD 1 []) else h_tm1
      let h_tm1_h := if 0 < c.recurrent_dropout ∧ c.recurrent_dropout < 1 then
          mulVec h_tm1 (rec_dp_mask.getD 2 []) else h_tm1
      let recurrent_z := matVec h_tm1_z c.recurrent_kernel_z
      let recurrent_r := matVec h_tm1_r c.recurrent_kernel_r
      let recurrent_z := if c.reset_after ∧ c.use_bias then
          addVec recurrent_z c.recurrent_bias_z else recurrent_z
      let recurrent_r := if c.reset_after ∧ c.use_bias then
          addVec recurrent_r c.recurrent_bias_r else recurrent_r
      let z := (addVec x_z recurrent_z).map c.recurrent_activation
      let r := (addVec x_r recurrent_r).map c.recurrent_activation
      let recurrent_h :=
        if c.reset_after then
          let rh := matVec h_tm1_h c.recurrent_kernel_h
          let rh := if c.use_bias then addVec rh c.recurrent_bias_h else rh
          mulVec r rh
        else
          matVec (mulVec r h_tm1_h) c.recurrent_kernel_h
      let hh := (addVec x_h recurrent_h).map c.activation
      (z, hh, h_tm1)
    else
      let inputs := if 0 < c.dropout ∧ c.dropout < 1 then
          mulVec inputs (dp_mask.getD 0 []) else inputs
      let matrix_x := matVec inputs c.kernel
      let matrix_x := if c.use_bias then addVec matrix_x c.input_bias
          else matrix_x
      let x_z := matrix_x.take c.units
      let x_r := (matrix_x.drop c.units).take c.units
      let x_h := matrix_x.drop (2 * c.units)
      let h_tm1 := if 0 < c.recurrent_dropout ∧ c.recurrent_dropout < 1 then
          mulVec h_tm1 (rec_dp_mask.getD 0 []) else h_tm1
      let matrix_inner :=
        if c.reset_after then
          let mi := matVec h_tm1 c.recurrent_kernel
          if c.use_bias then addVec mi c.recurrent_bias else mi
        else
          matVec h_tm1 (c.recurrent_kernel.take (2 * c.units))
      let recurrent_z := matrix_inner.take c.units
      let recurrent_r := (matrix_inner.drop c.units).take c.units
      let z := (addVec x_z recurrent_z).map c.recurrent_activation
      let r := (addVec x_r recurrent_r).map c.recurrent_activation
      let recurrent_h :=
        if c.reset_after then
          mulVec r (matrix_inner.drop (2 * c.units))
        else
          matVec (mulVec r h_tm1) (c.recurrent_kernel.drop (2 * c.units))
      let hh := (addVec x_h recurrent_h).map c.activation
      (z, hh, h_tm1)
  let h := addVec (mulVec z h_mix) (mulVec (oneMinus z) hh)
  (h, [h])

/-! ## LSTM cell bias initialization (`LSTMCell.build`, lines 4116-4168) -/

/-- The bias vector materialized by `LSTMCell.build` (lines 4130-4146): with
`unit_forget_bias` the initializer passed to `add_weight` concatenates
`bias_initializer((units,))`, `Ones()((units,))` and
`bias_initializer((units * 2,))`; otherwise the configured initializer fills
the whole `(units * 4,)` vector; without `use_bias` there is no bias.  The
initializer is modelled as a function from the requested size to the produced
vector. -/
def lstmBuildBias (units : ℕ) (use_bias unit_forget_bias : Bool)
    (bias_initializer : ℕ → Vec) : Option Vec :=
  if use_bias then
    some (if unit_forget_bias then
        bias_initializer units ++ List.replicate units (1 : ℚ) ++
          bias_initializer (2 * units)
      else bias_initializer (4 * units))
  else none

/-- `self.bias_i = self.bias[:self.units]` (line 4159). -/
def lstmBias_i (units : ℕ) (bias : Vec) : Vec := bias.take units

/-- `self.bias_f = self.bias[self.units: self.units * 2]` (line 4160). -/
def lstmBias_f (units : ℕ) (bias : Vec) : Vec :=
  (bias.drop units).take units

/-- `self.bias_c = self.bias[self.units * 2: self.units * 3]` (line 4161). -/
def lstmBias_c (units : ℕ) (bias : Vec) : Vec :=
  (bias.drop (2 * units)).take units

/-- `self.bias_o = self.bias[self.units * 3:]` (line 4162). -/
def lstmBias_o (units : ℕ) (bias : Vec) : Vec := bias.drop (3 * units)

/-! ## Derived context mask (`get_constants`, lines 2176-2180 / 6117-6121) -/

/-- The context mask derived by `GRUCond.get_constants` (lines 2177-2179) and
`AttLSTMCond.get_constants` (lines 6118-6120) when no explicit mask is given:
`K.cast(K.not_equal(K.sum(self.context, axis=2), self.mask_value), floatx)`
— position `t` is marked `1` when the *sum* of the features at `t` differs
from `mask_value`, else `0`. -/
def derivedContextMask (mask_value : ℚ) (context : List Vec) : List ℚ :=
  context.map (fun row => if row.sum ≠ mask_value then 1 else 0)

/-- The mask-resolution step of `get_constants`: keep an explicit mask, derive
one from the context otherwise. -/
def getConstantsMaskContext (mask_value : ℚ) (context : List Vec)
    (mask_context : Option (List ℚ)) : List ℚ :=
  match mask_context with
  | some m => m
  | none => derivedContextMask mask_value context

/-- The claim's reading of the derived mask, stated from the spec's words
("not all-zero along feature axis, judged against a configurable
`mask_value`"): position `t` is valid when not every feature at `t` equals
`mask_value`.  Kept separate from `derivedContextMask` (the source's
computation) for comparison. -/
def specMaskValid (mask_value : ℚ) (row : Vec) : Bool :=
  !(row.all (fun x => x = mask_value))

/-! ## Multi-context attention step (`AttLSTMCond2Inputs.step`, lines 7441-7517) -/

/-- Resolution of a bare Python name against its environment: `some` when the
name is bound, `none` when no enclosing scope defines it, in which case
referencing it raises `NameError`. -/
def pyName (n : String) : Option α → Except PyError α
  | some v => .ok v
  | none => .error (.nameError n)

/-- The `K.ndim(mask) > 1` context-masking guard of `step` (lines 7478-7480,
7487-7489): with a rank-2 mask, scale row `t` of the rank-3 tensor by the
mask entry at `t` (`mask[:, :, None] * x`); with the scalar placeholder, no
masking. -/
def applyCtxMask (m : Option (List ℚ)) (x : List Vec) : List Vec :=
  match m with
  | some mv => List.zipWith smulVec mv x
  | none => x

/-- `AttLSTMCond2Inputs` weights and configuration relevant to `step`, in the
`attend_on_both=True` configuration the claim is about.  Kernel matrices are
column lists over their respective input dimensions; `recurrent_kernel`,
`kernel` and `kernel2` have `4 * units` columns. -/
structure Att2Params where
  units : ℕ
  use_bias : Bool
  activation : ℚ → ℚ
  recurrent_activation : ℚ → ℚ
  backend : Backend
  attention_mode : AttentionMode
  recurrent_kernel : Mat
  kernel : Mat
  kernel2 : Mat
  bias : Vec
  bias2 : Vec
  attention_recurrent_kernel : Mat
  attention_recurrent_kernel2 : Mat
  attention_context_wa : Vec
  attention_context_wa2 : Vec
  bias_ca : Vec
  bias_ca2 : Vec

/-- The state-and-constants slots `step` unpacks positionally (lines
7442-7469) for `attend_on_both=True`, in slot order: `states[0..1]` the
recurrent state and memory, `states[6..9]` the dropout masks, `states[10]`
the second attention dropout mask, `states[11..13]` context 1 with its mask
and projected keys, `states[14..16]` context 2 with its mask and projected
keys.  (Slots 2-5 are placeholder outputs and never read.) -/
structure Att2States where
  h_tm1 : Vec
  c_tm1 : Vec
  rec_dp_mask : List Vec
  dp_mask2 : List Vec
  dp_mask : List Vec
  att_dp_mask : List Vec
  att_dp_mask2 : List Vec
  context1 : List Vec
  mask_context1 : Option (List ℚ)
  pctx_1 : List Vec
  context2 : List Vec
  mask_context2 : Option (List ℚ)
  pctx_2 : List Vec

/-- `AttLSTMCond2Inputs.step` (lines 7441-7517) with `attend_on_both=True`,
per batch sample.  The bare names `context` (lines 7482, 7492) and `z_`
(line 7506) have no binding in any enclosing scope of the source module, so
they are resolved through `pyName _ none`; both attention calls pass
`pctx_1` as the projected keys (lines 7482, 7492). -/
def attLSTMCond2InputsStep (P : Att2Params) (x : Vec) (s : Att2States) :
    Except PyError (Vec × (Vec × Vec × Vec × List ℚ × Vec × List ℚ)) := do
  let pctx_1 := applyCtxMask s.mask_context1 s.pctx_1
  let _context1 := applyCtxMask s.mask_context1 s.context1
  let context ← (pyName "context" none : Except PyError (List Vec))
  let (ctx_1, alphas1) ← compute_attention P.backend s.h_tm1 pctx_1 context
    s.att_dp_mask P.attention_recurrent_kernel P.attention_context_wa
    P.bias_ca s.mask_context1 P.attention_mode
  let _pctx_2 := applyCtxMask s.mask_context2 s.pctx_2
  let _context2 := applyCtxMask s.mask_context2 s.context2
  let (ctx_2, alphas2) ← compute_attention P.backend s.h_tm1 pctx_1 context
    s.att_dp_mask2 P.attention_recurrent_kernel2 P.attention_context_wa2
    P.bias_ca2 s.mask_context2 P.attention_mode
  let z := addVec (addVec (addVec x
      (matVec (mulVec s.h_tm1 (s.rec_dp_mask.getD 0 [])) P.recurrent_kernel))
      (matVec (mulVec ctx_2 (s.dp_mask2.getD 0 [])) P.kernel2))
      (matVec (mulVec ctx_1 (s.dp_mask.getD 0 [])) P.kernel)
  let z ← if P.use_bias then do
      let _z := addVec z P.bias
      let z_ ← (pyName "z_" none : Except PyError Vec)
      pure (addVec z_ P.bias2)
    else pure z
  let z0 := z.take P.units
  let z1 := (z.drop P.units).take P.units
  let z2 := (z.drop (2 * P.units)).take P.units
  let z3 := z.drop (3 * P.units)
  let i := z0.map P.recurrent_activation
  let f := z1.map P.recurrent_activation
  let c := addVec (mulVec f s.c_tm1) (mulVec i (z2.map P.activation))
  let o := z3.map P.recurrent_activation
  let h := mulVec o (c.map P.activation)
  pure (h, (h, c, ctx_1, alphas1, ctx_2, alphas2))

/-! ## The `RNN` wrapper (`RNN.call`, lines 613-703; `RNN.reset_states`,
lines 745-795) -/

/-- The statically known shape information of the input sequence tensor:
`K.int_shape(inputs)[1]`, the number of timesteps (`none` when unknown). -/
structure SeqTensor where
  timesteps : Option ℕ

/-- A state tensor of a stateful layer, `(batch, dim)` row-major. -/
abbrev STensor := List Vec

/-- The static shape of a state tensor (`value.shape`). -/
def shapeOf (t : STensor) : ℕ × ℕ := (t.length, (t.headD []).length)

/-- `K.zeros((batch, dim))`. -/
def zerosTensor (batch dim : ℕ) : STensor :=
  List.replicate batch (List.replicate dim 0)

/-- The `RNN` layer fields read by `call` and `reset_states`.  `T` is the
abstract state-tensor type; `internal_states` is `self._states` (entries may
be Python `None`); `batch_size` is `self.input_spec[0].shape[0]`. -/
structure RNNLayerModel (T : Type) where
  cell_state_size : StateSize
  internal_states : Option (List (Option T))
  batch_size : Option ℕ
  stateful : Bool
  unroll : Bool
  return_sequences : Bool
  return_state : Bool

/-- The `states` property (lines 465-473): `[None] * num_states` while
`self._states is None` (one state for an integer `state_size`, else
`len(state_size)` states), otherwise `self._states`. -/
def RNNLayerModel.states (L : RNNLayerModel T) : List (Option T) :=
  match L.internal_states with
  | none => List.replicate L.cell_state_size.numStates none
  | some s => s

/-- `RNN.get_initial_state` (lines 553-562): one all-zero tensor per declared
state size (`zeros dim` stands for the tiled zero tensor of width `dim`). -/
def RNNLayerModel.get_initial_state (L : RNNLayerModel T) (zeros : ℕ → T) :
    List (Option T) :=
  L.cell_state_size.components.map (fun dim => some (zeros dim))

/-- The initial-state resolution of `RNN.call` (lines 624-629): the explicit
argument when given, else the carried-over states when stateful, else the
zero state derived from the input. -/
def resolveInitialState (L : RNNLayerModel T) (zeros : ℕ → T)
    (initial_state : Option (List (Option T))) : List (Option T) :=
  match initial_state with
  | some s => s
  | none => if L.stateful then L.states else L.get_initial_state zeros

/-- The message of the `ValueError` raised at lines 642-652 (first line of the
source text; the remainder of the message is usage advice). -/
def unrollErrorMessage : String :=
  "Cannot unroll a RNN if the time dimension is undefined or equal to 1."

/-- `RNN.call` (lines 613-703): resolve the initial state (explicit argument,
else carried state when stateful, else zeros), validate the state count
(lines 634-638), reject `unroll` without a static time dimension `≠ 1`
(lines 641-652), then hand over to the backend scan driver `K.rnn` and shape
its result by `return_sequences` / `return_state`.  The driver is abstracted
by its result `krnn = (last_output, outputs, final_states)`; the theorems
quantify over it, so anything proved about an error result holds before and
independently of the driver invocation. -/
def rnnCall (L : RNNLayerModel T) (zeros : ℕ → T) (inputs : SeqTensor)
    (initial_state : Option (List (Option T))) (krnn : T × T × List T) :
    Except PyError (List T) :=
  let init := resolveInitialState L zeros initial_state
  if init.length ≠ L.states.length then
    .error (.valueError ("Layer has " ++ toString L.states.length ++
      " states but was passed " ++ toString init.length ++ " initial states."))
  else if L.unroll ∧ (inputs.timesteps = none ∨ inputs.timesteps = some 1) then
    .error (.valueError unrollErrorMessage)
  else
    let (last_output, outputs, states) := krnn
    let output := if L.return_sequences then outputs else last_output
    if L.return_state then .ok (output :: states) else .ok [output]

/-- The per-state width used by the shape check of `reset_states` (lines
783-787): `state_size[index]` for a list-like `state_size`, the single size
otherwise. -/
def StateSize.dimAt (ss : StateSize) (i : ℕ) : ℕ :=
  match ss with
  | .single n => n
  | .multiple ns => ns.getD i 0

/-- The assignment loop of `reset_states` (lines 783-795): check each value's
shape against `(batch_size, dim)` — raising `ValueError` at the first
mismatch — and assign it (`K.set_value`).  The partial mutation a mid-loop
exception leaves behind is not observable here: an error result carries no
state list. -/
def setStatesLoop (batch : ℕ) (ss : StateSize) :
    ℕ → List STensor → List (Option STensor) →
    Except PyError (List (Option STensor))
  | _, [], sts => .ok sts
  | i, v :: vs, sts =>
      if shapeOf v ≠ (batch, ss.dimAt i) then
        .error (.valueError ("State " ++ toString i ++
          " is incompatible with layer: expected shape=(" ++ toString batch ++
          ", " ++ toString (ss.dimAt i) ++ "), found shape=" ++
          toString (shapeOf v)))
      else setStatesLoop batch ss (i + 1) vs (sts.set i (some v))

/-- `RNN.reset_states` (lines 745-795): refuse non-stateful layers with
`AttributeError` (lines 746-747), require a known non-zero batch size
(lines 748-759, `if not batch_size` — Python-falsy `None` or `0`), then
initialize, zero, or assign the states.  Returns the new `self.states`, the
only field the method mutates. -/
def rnnResetStates (L : RNNLayerModel STensor)
    (values : Option (List STensor)) :
    Except PyError (List (Option STensor)) :=
  if L.stateful = false then
    .error (.attributeError "Layer must be stateful.")
  else if L.batch_size.getD 0 = 0 then
    .error (.valueError ("If a RNN is stateful, it needs to know its " ++
      "batch size. Specify the batch size of your input tensors."))
  else
    let batch := L.batch_size.getD 0
    let sts := L.states
    if sts.headD none = none then
      .ok (L.cell_state_size.components.map
        (fun dim => some (zerosTensor batch dim)))
    else
      match values with
      | none =>
          match L.cell_state_size with
          | .multiple dims =>
              .ok ((List.zipWith (fun _ dim => some (zerosTensor batch dim))
                sts dims) ++ sts.drop dims.length)
          | .single n => .ok (sts.set 0 (some (zerosTensor batch n)))
      | some vs =>
          if vs.length ≠ sts.length then
            .error (.valueError ("Layer expects " ++ toString sts.length ++
              " states, but it received " ++ toString vs.length ++
              " state values."))
          else setStatesLoop batch L.cell_state_size 0 vs sts

/-! ## SimpleRNN dropout-mask lifecycle (`SimpleRNNCell.call`, lines 955-988;
`SimpleRNN.call`, lines 1133-1139) -/

/-- `SimpleRNNCell` after `build`. -/
structure SimpleRNNCellP where
  units : ℕ
  activation : ℚ → ℚ
  use_bias : Bool
  kernel : Mat
  recurrent_kernel : Mat
  bias : Vec
  dropout : ℚ
  recurrent_dropout : ℚ

/-- The mutable per-instance fields of the cell: the cached dropout masks
(`self._dropout_mask`, `self._recurrent_dropout_mask`) plus the position
`rng` in the random stream, so that each `_generate_dropout_mask` event
consumes one fresh draw. -/
structure CellCache where
  dropout_mask : Option Vec
  recurrent_dropout_mask : Option Vec
  rng : ℕ
  deriving DecidableEq

/-- `SimpleRNNCell.call` (lines 955-988), per batch sample.  `gen i` models
the `i`-th tensor `_generate_dropout_mask` returns (a dropped-ones tensor
under training, all-ones at inference); a mask is generated only when its
rate lies in `(0, 1)` and the cached field is still `None` (lines 957-966).
Returns `(output, new_state, new_cache)`; the new state list is `[output]`. -/
def simpleRNNCellCall (c : SimpleRNNCellP) (gen : ℕ → Vec) (st : CellCache)
    (inputs prev_output : Vec) : Vec × Vec × CellCache :=
  let st := if 0 < c.dropout ∧ c.dropout < 1 ∧ st.dropout_mask = none then
      { st with dropout_mask := some (gen st.rng), rng := st.rng + 1 }
    else st
  let st := if 0 < c.recurrent_dropout ∧ c.recurrent_dropout < 1 ∧
      st.recurrent_dropout_mask = none then
      { st with recurrent_dropout_mask := some (gen st.rng), rng := st.rng + 1 }
    else st
  let h := match st.dropout_mask with
    | some m => matVec (mulVec inputs m) c.kernel
    | none => matVec inputs c.kernel
  let h := if c.use_bias then addVec h c.bias else h
  let prev := match st.recurrent_dropout_mask with
    | some m => mulVec prev_output m
    | none => prev_output
  let output := (addVec h (matVec prev c.recurrent_kernel)).map c.activation
  (output, output, st)

/-- Modelled from the spec: the temporal scan driver contract (§4.4,
`K.rnn`), specialized to the forward, unmasked, single-state case: iterate
the timesteps in order, calling the step function and threading the state;
the cell's mutable cache is threaded alongside because the step closure
reads and writes the cell instance. -/
def scanCell (c : SimpleRNNCellP) (gen : ℕ → Vec) :
    CellCache → Vec → List Vec → List Vec × Vec × CellCache
  | st, h, [] => ([], h, st)
  | st, h, x :: xs =>
      let (out, h', st') := simpleRNNCellCall c gen st x h
      let (outs, hF, stF) := scanCell c gen st' h' xs
      (out :: outs, hF, stF)

/-- `SimpleRNN.call` (lines 1133-1139): set `self.cell._dropout_mask = None`
and `self.cell._recurrent_dropout_mask = None`, then delegate to `RNN.call`,
whose scan driver iterates `cell.call` over the timesteps.  `prev` is the
cell cache left over from any previous outer call (only its stream position
survives the reset). -/
def simpleRNNLayerCall (c : SimpleRNNCellP) (gen : ℕ → Vec)
    (prev : CellCache) (xs : List Vec) (h0 : Vec) :
    List Vec × Vec × CellCache :=
  let st0 : CellCache :=
    { dropout_mask := none, recurrent_dropout_mask := none, rng := prev.rng }
  scanCell c gen st0 h0 xs

/-- The claim's reference step: one SimpleRNN timestep with *fixed* dropout
masks `dp` and `rec` applied to the input and the previous output. -/
def stepWithMasks (c : SimpleRNNCellP) (dp rec : Vec) (x h : Vec) : Vec :=
  let hK := matVec (mulVec x dp) c.kernel
  let hK := if c.use_bias then addVec hK c.bias else hK
  (addVec hK (matVec (mulVec h rec) c.recurrent_kernel)).map c.activation

/-- The claim's reference scan: every timestep multiplied by the same mask
matrices. -/
def maskedScan (c : SimpleRNNCellP) (dp rec : Vec) :
    Vec → List Vec → List Vec × Vec
  | h, [] => ([], h)
  | h, x :: xs =>
      let out := stepWithMasks c dp rec x h
      let (outs, hF) := maskedScan c dp rec out xs
      (out :: outs, hF)

/-! ## Concrete instances used by witnesses and counterexamples -/

/-- A computable, strictly positive stand-in for the backend's `exp` used to
instantiate the abstract softmax weight function on concrete inputs (it
shares with `exp` the properties the softmax invariant rests on: strict
positivity and value `1` at `0`). -/
def pexp (x : ℚ) : ℚ := if 0 ≤ x then x + 1 else 1 / (1 - x)

/-- A concrete custom scoring callable: constant scores `[1, 1]` over a
two-step context. -/
def constScores : Vec → List Vec → List Vec → List Vec → Mat → Vec → Vec →
    Option (List ℚ) → List ℚ := fun _ _ _ _ _ _ _ _ => [1, 1]

/-! ## Theorems -/

/-- Summing `x ↦ g x / S` over a list divides the summed `g` by `S`. -/
theorem sum_map_div (l : List ℚ) (g : ℚ → ℚ) (S : ℚ) :
    (l.map (fun x => g x / S)).sum = (l.map g).sum / S := by
  induction l with
  | nil => simp
  | cons a t ih => simp [ih, add_div]

/-- A softmax with a strictly positive weight function sums to `1` on any
nonempty score list. -/
theorem softmax_sum_eq_one (f : ℚ → ℚ) (e : List ℚ) (hf : ∀ x, 0 < f x)
    (he : e ≠ []) : (softmax f e).sum = 1 := by
  have hS : 0 < (e.map f).sum := by
    refine List.sum_pos _ ?_ (by simpa using he)
    intro x hx
    obtain ⟨y, -, rfl⟩ := List.mem_map.1 hx
    exact hf y
  unfold softmax
  rw [sum_map_div, div_self (ne_of_gt hS)]

/-- Restricting a sum to everywhere-nonzero mask positions changes nothing. -/
theorem sumOverValid_of_all_nonzero (mask a : List ℚ)
    (hlen : mask.length = a.length) (h : ∀ m ∈ mask, m ≠ 0) :
    sumOverValid mask a = a.sum := by
  unfold sumOverValid
  induction mask generalizing a with
  | nil => cases a <;> simp_all
  | cons m t ih =>
      cases a with
      | nil => simp_all
      | cons b u =>
          simp only [List.zipWith_cons_cons, List.sum_cons]
          rw [if_neg (h m (List.mem_cons_self m t)), ih u (by simpa using hlen)
            (fun x hx => h x (List.mem_cons_of_mem m hx))]

/-- The softmax weight stand-in `pexp` is strictly positive, like `exp`. -/
theorem pexp_pos : ∀ x : ℚ, 0 < pexp x := by
  intro x
  unfold pexp
  split
  · linarith
  · exact div_pos one_pos (by linarith [not_le.1 (by assumption)])

/-- C2: `StackedRNNCells` lays its flat state list out in reversed cell
order: `state_size` concatenates the cells' size components last-to-first,
and `call` hands the leading chunk of the flat state list to the *last* cell,
runs the cells forward from cell 0 with each consuming the previous output,
and re-flattens the new states last-to-first. -/
theorem stackedRNNCells_reversed_layout :
    (∀ (α : Type) (c₁ c₂ : RNNCell α),
      stackedStateSize [c₁, c₂] =
        c₂.state_size.components ++ c₁.state_size.components) ∧
    (∀ (α : Type) (c₁ c₂ : RNNCell α) (x : α) (s₂ s₁ : List α),
      s₂.length = c₂.state_size.numStates →
      s₁.length = c₁.state_size.numStates →
      stackedCall [c₁, c₂] x (s₂ ++ s₁) =
        ((c₂.call (c₁.call x s₁).1 s₂).1,
         (c₂.call (c₁.call x s₁).1 s₂).2 ++ (c₁.call x s₁).2)) := by
  constructor
  · intro α c₁ c₂
    simp [stackedStateSize]
  · intro α c₁ c₂ x s₂ s₁ h₂ h₁
    unfold stackedCall
    simp only [List.reverse_cons, List.reverse_nil, List.nil_append,
      List.cons_append, partitionStates]
    rw [List.take_left' h₂, List.drop_left' h₂, ← h₁, List.take_length]
    simp [forwardCalls]

/-- Witness for C2: two cells with state sizes `[2]` and `[3]` give
`state_size = (3, 2)`, and `call` on the reversed-layout flat state list
threads cell 0's output into cell 1 and re-flattens reversed. -/
theorem stackedRNNCells_reversed_layout_witness :
    stackedStateSize [(⟨.multiple [2], fun x _ => (x + 1, [x])⟩ : RNNCell ℚ),
        ⟨.multiple [3], fun x _ => (x * 2, [x * 3])⟩] = [3, 2] ∧
      stackedCall [(⟨.multiple [2], fun x _ => (x + 1, [x])⟩ : RNNCell ℚ),
        ⟨.multiple [3], fun x _ => (x * 2, [x * 3])⟩] 1 [20, 10] =
        (4, [6, 1]) := by
  constructor
  · exact stackedRNNCells_reversed_layout.1 ℚ
      ⟨.multiple [2], fun x _ => (x + 1, [x])⟩
      ⟨.multiple [3], fun x _ => (x * 2, [x * 3])⟩
  · have h := stackedRNNCells_reversed_layout.2 ℚ
      ⟨.multiple [2], fun x _ => (x + 1, [x])⟩
      ⟨.multiple [3], fun x _ => (x * 2, [x * 3])⟩ 1 [20] [10] rfl rfl
    convert h using 2 <;> norm_num

/-- Column-slicing commutes with the vector-matrix product: taking the first
`n` entries of `x·W` is multiplying by the first `n` columns. -/
theorem take_matVec (x : Vec) (W : Mat) (n : ℕ) :
    (matVec x W).take n = matVec x (W.take n) := by
  simp [matVec, List.map_take]

/-- Column-slicing commutes with the vector-matrix product (drop form). -/
theorem drop_matVec (x : Vec) (W : Mat) (n : ℕ) :
    (matVec x W).drop n = matVec x (W.drop n) := by
  simp [matVec, List.map_drop]

/-- Slicing commutes with elementwise addition. -/
theorem take_addVec (a b : Vec) (n : ℕ) :
    (addVec a b).take n = addVec (a.take n) (b.take n) :=
  List.take_zipWith ..

/-- Slicing commutes with elementwise addition (drop form). -/
theorem drop_addVec (a b : Vec) (n : ℕ) :
    (addVec a b).drop n = addVec (a.drop n) (b.drop n) :=
  List.drop_zipWith ..

/-- Taking `u` of the first `2 * u` entries is taking the first `u`. -/
theorem take_take_two_mul {β : Type} (l : List β) (u : ℕ) :
    (l.take (2 * u)).take u = l.take u := by
  rw [List.take_take, Nat.min_eq_left (by omega)]

/-- The middle block `[u, 2u)` of a `2 * u`-prefix. -/
theorem drop_take_two_mul {β : Type} (l : List β) (u : ℕ) :
    ((l.take (2 * u)).drop u).take u = (l.drop u).take u := by
  rw [List.drop_take, List.take_take, Nat.min_eq_left (by omega)]

/-- C3 counterexample: a `GRUCell` with `recurrent_dropout = 1/2` (identity
activations, no bias, `reset_after=False`) on input `[1]`, state `[1]` and
the all-zero recurrent dropout mask triple returns `[1]` in implementation
mode 1 but `[0]` in mode 2: mode 2 rebinds `h_tm1` to its dropped value
before the final mix `h = z * h_tm1 + (1 - z) * hh` (lines 1473, 1500),
mode 1 does not. -/
theorem gru_impl_modes_differ_with_dropout :
    (GRUCell.call
      { units := 1, activation := id, recurrent_activation := id,
        use_bias := false, reset_after := false, implementation := 1,
        dropout := 0, recurrent_dropout := 1 / 2,
        kernel := [[1], [0], [0]], recurrent_kernel := [[0], [0], [0]],
        input_bias := [], recurrent_bias := [] }
      [1] [1] [[1], [1], [1]] [[0], [0], [0]] = ([1], [[1]])) ∧
    (GRUCell.call
      { units := 1, activation := id, recurrent_activation := id,
        use_bias := false, reset_after := false, implementation := 2,
        dropout := 0, recurrent_dropout := 1 / 2,
        kernel := [[1], [0], [0]], recurrent_kernel := [[0], [0], [0]],
        input_bias := [], recurrent_bias := [] }
      [1] [1] [[1], [1], [1]] [[0], [0], [0]] = ([0], [[0]])) ∧
    ([(1 : ℚ)], [[(1 : ℚ)]]) ≠ ([0], [[0]]) := by
  refine ⟨?_, ?_, by norm_num⟩ <;>
    norm_num [GRUCell.call, GRUCell.kernel_z, GRUCell.kernel_r,
      GRUCell.kernel_h, GRUCell.recurrent_kernel_z, GRUCell.recurrent_kernel_r,
      GRUCell.recurrent_kernel_h, GRUCell.input_bias_z, GRUCell.input_bias_r,
      GRUCell.input_bias_h, matVec, dotVec, mulVec, addVec, oneMinus]

/-- C3 (amended): whenever no dropout mask is applied — `dropout` and
`recurrent_dropout` outside `(0, 1)`, which includes every cell built with
the default rates `0` — implementation mode 1 (separate per-gate matmuls)
and mode 2 (one fused matmul then sliced) return the same `(output, state)`
for every input, previous state, kernel set and mask argument, in both
kernel layouts (`reset_after` true or false) and with or without biases. -/
theorem gru_impl_modes_agree_without_dropout (c : GRUCell)
    (inputs h_tm1 : Vec) (dp_mask rec_dp_mask : List Vec)
    (hd : ¬(0 < c.dropout ∧ c.dropout < 1))
    (hr : ¬(0 < c.recurrent_dropout ∧ c.recurrent_dropout < 1)) :
    GRUCell.call { c with implementation := 1 } inputs h_tm1
        dp_mask rec_dp_mask =
      GRUCell.call { c with implementation := 2 } inputs h_tm1
        dp_mask rec_dp_mask := by
  obtain ⟨u, act, ra, ub, rsa, impl, dp, rd, K, RK, ib, rb⟩ := c
  simp only at hd hr
  cases ub <;> cases rsa <;>
    simp [GRUCell.call, GRUCell.kernel_z, GRUCell.kernel_r, GRUCell.kernel_h,
      GRUCell.recurrent_kernel_z, GRUCell.recurrent_kernel_r,
      GRUCell.recurrent_kernel_h, GRUCell.input_bias_z, GRUCell.input_bias_r,
      GRUCell.input_bias_h, GRUCell.recurrent_bias_z, GRUCell.recurrent_bias_r,
      GRUCell.recurrent_bias_h, hd, hr, take_matVec, drop_matVec, take_addVec,
      drop_addVec, take_take_two_mul, drop_take_two_mul]

/-- Witness for C3 (amended): a concrete no-dropout cell with bias, evaluated
in both modes. -/
theorem gru_impl_modes_agree_without_dropout_witness :
    GRUCell.call
        { units := 1, activation := id, recurrent_activation := id,
          use_bias := true, reset_after := true, implementation := 1,
          dropout := 0, recurrent_dropout := 0,
          kernel := [[1], [2], [3]], recurrent_kernel := [[4], [5], [6]],
          input_bias := [1, 1, 1], recurrent_bias := [2, 2, 2] }
        [1] [1] [] [] =
      GRUCell.call
        { units := 1, activation := id, recurrent_activation := id,
          use_bias := true, reset_after := true, implementation := 2,
          dropout := 0, recurrent_dropout := 0,
          kernel := [[1], [2], [3]], recurrent_kernel := [[4], [5], [6]],
          input_bias := [1, 1, 1], recurrent_bias := [2, 2, 2] }
        [1] [1] [] [] :=
  gru_impl_modes_agree_without_dropout
    { units := 1, activation := id, recurrent_activation := id,
      use_bias := true, reset_after := true, implementation := 1,
      dropout := 0, recurrent_dropout := 0,
      kernel := [[1], [2], [3]], recurrent_kernel := [[4], [5], [6]],
      input_bias := [1, 1, 1], recurrent_bias := [2, 2, 2] }
    [1] [1] [] [] (by norm_num) (by norm_num)

/-- C4 counterexample: with a rank-2 mask `[1, 0]` the returned weights sum
to `1` over *all* positions but not over the valid ones alone — the masked
position keeps the small nonzero weight `1/3`, so the sum over valid
positions is `2/3 ≠ 1`. -/
theorem attention_weights_masked_sum_below_one :
    compute_attention ⟨id, pexp⟩ [] [] [[(1 : ℚ)], [1]] [] [] [] []
        (some [1, 0]) (.custom constScores) =
      .ok ([1], [2 / 3, 1 / 3]) ∧
      sumOverValid [1, 0] [2 / 3, 1 / 3] = 2 / 3 ∧ (2 / 3 : ℚ) ≠ 1 := by
  refine ⟨?_, by norm_num [sumOverValid], by norm_num⟩
  show Except.ok _ = _
  norm_num [compute_attention, softmax, weightedSum, constScores, pexp,
    smulVec, addVec, mulVec, matVec, dotVec, sumOverValid]

/-- C4 (amended): every weight vector `compute_attention` returns sums to `1`
over the *whole* time axis (the pre-softmax mask only reweights scores), and
hence over the valid positions of any everywhere-valid mask — the fully
unmasked case of the claim. -/
theorem attention_weights_sum_to_one (B : Backend) (h_tm1 : Vec)
    (pctx_ context : List Vec) (att_dp_mask : List Vec) (ark : Mat)
    (wa bca : Vec) (mc : Option (List ℚ)) (mode : AttentionMode)
    (r : Vec × List ℚ) (hf : ∀ x, 0 < B.kexp x)
    (hok : compute_attention B h_tm1 pctx_ context att_dp_mask ark wa bca mc
      mode = .ok r) (hne : r.2 ≠ []) :
    r.2.sum = 1 ∧
      ∀ mask : List ℚ, mask.length = r.2.length → (∀ m ∈ mask, m ≠ 0) →
        sumOverValid mask r.2 = 1 := by
  have hmain : r.2.sum = 1 := by
    cases mode <;>
      simp only [compute_attention, bind, Except.bind, pure, Except.pure] at hok
    case other s => exact absurd hok (by simp)
    all_goals
      (obtain ⟨rfl⟩ := Except.ok.inj hok
       refine softmax_sum_eq_one _ _ hf ?_
       intro hnil
       exact hne (by rw [show (weightedSum (softmax B.kexp _) context,
         softmax B.kexp _).2 = softmax B.kexp _ from rfl, hnil]; rfl))
  refine ⟨hmain, fun mask hlen hnz => ?_⟩
  rw [sumOverValid_of_all_nonzero mask r.2 hlen hnz, hmain]

/-- Witness for C4 (amended): a fully unmasked two-step context; the returned
weights are `[1/2, 1/2]`, summing to `1`. -/
theorem attention_weights_sum_to_one_witness :
    (([(1 : ℚ)], [(1 : ℚ) / 2, 1 / 2]) : Vec × List ℚ).2.sum = 1 ∧
      ∀ mask : List ℚ,
        mask.length = (([(1 : ℚ)], [(1 : ℚ) / 2, 1 / 2]) : Vec × List ℚ).2.length →
        (∀ m ∈ mask, m ≠ 0) →
        sumOverValid mask (([(1 : ℚ)], [(1 : ℚ) / 2, 1 / 2]) : Vec × List ℚ).2 = 1 :=
  attention_weights_sum_to_one ⟨id, pexp⟩ [] [] [[1], [1]] [] [] [] [] none
    (.custom constScores) ([1], [1 / 2, 1 / 2]) pexp_pos
    (by show Except.ok _ = _
        norm_num [compute_attention, softmax, weightedSum, constScores, pexp,
          smulVec, addVec, mulVec, matVec, dotVec])
    (by simp)

/-- C1: `AttLSTMCond2Inputs.step` with `attend_on_both=True` never computes
the second attention head from `pctx_2`/`context2`: the head-2 call passes
the first context's projected keys `pctx_1` (line 7492), and both attention
calls reference the unbound name `context`, so every invocation of `step`
raises `NameError` before producing any output. -/
theorem attLSTMCond2Inputs_step_raises_nameError (P : Att2Params) (x : Vec)
    (s : Att2States) :
    attLSTMCond2InputsStep P x s = .error (.nameError "context") := rfl

/-- C6: an `attention_mode` that is none of `'add'`/`'bahdanau'`/`'dot'`/
`'luong'` and not a callable makes `compute_attention` fail (lines 82-83)
with an eagerly raised error in the spec's ConfigurationError taxonomy;
no score is ever produced. -/
theorem compute_attention_unsupported_mode_fails (B : Backend) (h_tm1 : Vec)
    (pctx_ context : List Vec) (att_dp_mask : List Vec) (ark : Mat)
    (wa bca : Vec) (mc : Option (List ℚ)) (s : String) :
    compute_attention B h_tm1 pctx_ context att_dp_mask ark wa bca mc
        (.other s) =
      .error (.notImplementedError
        ("The attention mode " ++ s ++ " is not implemented.")) ∧
    (PyError.notImplementedError
        ("The attention mode " ++ s ++ " is not implemented.")
      ).isConfigurationError = true :=
  ⟨rfl, rfl⟩

/-- C10: `reset_states` on a non-stateful layer raises `AttributeError` at
its first line (lines 746-747), before any state is read or written — the
error result carries no state list, so the layer's states are untouched. -/
theorem reset_states_not_stateful_attributeError
    (L : RNNLayerModel STensor) (values : Option (List STensor))
    (h : L.stateful = false) :
    rnnResetStates L values = .error (.attributeError "Layer must be stateful.") := by
  simp [rnnResetStates, h]

/-- Witness for C10 at a concrete non-stateful layer. -/
theorem reset_states_not_stateful_attributeError_witness :
    rnnResetStates
        { cell_state_size := .single 2, internal_states := none,
          batch_size := some 4, stateful := false, unroll := false,
          return_sequences := false, return_state := false }
        none =
      .error (.attributeError "Layer must be stateful.") :=
  reset_states_not_stateful_attributeError _ none rfl

/-- C5: `RNN.call` with `unroll=True` on an input whose static time dimension
is unknown or `1` returns an error of the spec's ConfigurationError taxonomy
(lines 641-652) for *every* possible scan-driver result — the driver is never
consulted. -/
theorem rnn_call_unroll_without_static_length_fails {T : Type}
    (L : RNNLayerModel T) (zeros : ℕ → T) (inputs : SeqTensor)
    (initial_state : Option (List (Option T))) (krnn : T × T × List T)
    (hu : L.unroll = true)
    (ht : inputs.timesteps = none ∨ inputs.timesteps = some 1) :
    ∃ e, rnnCall L zeros inputs initial_state krnn = .error e ∧
      e.isConfigurationError = true := by
  unfold rnnCall
  by_cases hlen :
      (resolveInitialState L zeros initial_state).length ≠ L.states.length
  · rw [if_pos hlen]
    exact ⟨_, rfl, rfl⟩
  · rw [if_neg hlen, if_pos ⟨hu, ht⟩]
    exact ⟨_, rfl, rfl⟩

/-- Witness for C5 at a concrete layer and a time-dimension-free input. -/
theorem rnn_call_unroll_without_static_length_fails_witness :
    ∃ e, rnnCall
        { cell_state_size := .single 1, internal_states := none,
          batch_size := none, stateful := false, unroll := true,
          return_sequences := false, return_state := false }
        (fun _ => (0 : ℚ)) ⟨none⟩ none (0, 0, []) = .error e ∧
      e.isConfigurationError = true :=
  rnn_call_unroll_without_static_length_fails _ _ _ _ _ rfl (Or.inl rfl)

/-- C7: for an `LSTMCell` built with `use_bias=True` and
`unit_forget_bias=True`, the materialized bias vector's second quarter-block
(the forget-gate slice) is all ones, its first quarter-block is the
configured initializer's output for shape `(units,)`, and its last two
quarter-blocks are the two halves of the initializer's output for shape
`(units * 2,)` — a build-time concatenation (lines 4130-4144). -/
theorem lstm_unit_forget_bias_blocks (units : ℕ) (init : ℕ → Vec)
    (hlen : ∀ n, (init n).length = n) :
    ∃ b, lstmBuildBias units true true init = some b ∧
      lstmBias_f units b = List.replicate units (1 : ℚ) ∧
      lstmBias_i units b = init units ∧
      lstmBias_c units b = (init (2 * units)).take units ∧
      lstmBias_o units b = (init (2 * units)).drop units := by
  refine ⟨init units ++ List.replicate units (1 : ℚ) ++ init (2 * units),
    rfl, ?_, ?_, ?_, ?_⟩
  · unfold lstmBias_f
    rw [List.append_assoc, List.drop_left' (hlen units),
      List.take_left' (by simp)]
  · unfold lstmBias_i
    rw [List.append_assoc, List.take_left' (hlen units)]
  · unfold lstmBias_c
    rw [List.drop_left' (by simp [hlen, two_mul])]
  · unfold lstmBias_o
    rw [show 3 * units = 2 * units + units by ring, ← List.drop_drop,
      List.drop_left' (by simp [hlen, two_mul])]

/-- Witness for C7: `units = 2` with the zeros initializer. -/
theorem lstm_unit_forget_bias_blocks_witness :
    ∃ b, lstmBuildBias 2 true true (fun n => List.replicate n (0 : ℚ)) = some b ∧
      lstmBias_f 2 b = List.replicate 2 (1 : ℚ) ∧
      lstmBias_i 2 b = List.replicate 2 (0 : ℚ) ∧
      lstmBias_c 2 b = (List.replicate 4 (0 : ℚ)).take 2 ∧
      lstmBias_o 2 b = (List.replicate 4 (0 : ℚ)).drop 2 :=
  lstm_unit_forget_bias_blocks 2 (fun n => List.replicate n (0 : ℚ))
    (fun n => List.length_replicate n 0)

/-- A cell call whose mask cache is already populated generates nothing: it
applies the cached masks and leaves the cache untouched. -/
theorem simpleRNNCellCall_cached (c : SimpleRNNCellP) (gen : ℕ → Vec)
    (dp rec : Vec) (n : ℕ) (x h : Vec) :
    simpleRNNCellCall c gen ⟨some dp, some rec, n⟩ x h =
      (stepWithMasks c dp rec x h, stepWithMasks c dp rec x h,
        ⟨some dp, some rec, n⟩) := by
  simp [simpleRNNCellCall, stepWithMasks]

/-- The first cell call after a reset, with both rates in `(0, 1)`, draws the
two masks from the stream (one generation event each) and applies them. -/
theorem simpleRNNCellCall_generates (c : SimpleRNNCellP) (gen : ℕ → Vec)
    (r : ℕ) (x h : Vec) (hd : 0 < c.dropout ∧ c.dropout < 1)
    (hr : 0 < c.recurrent_dropout ∧ c.recurrent_dropout < 1) :
    simpleRNNCellCall c gen ⟨none, none, r⟩ x h =
      (stepWithMasks c (gen r) (gen (r + 1)) x h,
        stepWithMasks c (gen r) (gen (r + 1)) x h,
        ⟨some (gen r), some (gen (r + 1)), r + 2⟩) := by
  simp [simpleRNNCellCall, stepWithMasks, hd.1, hd.2, hr.1, hr.2]

/-- Scanning from a populated cache is the fixed-mask scan: no step changes
the cache or the masks. -/
theorem scanCell_cached (c : SimpleRNNCellP) (gen : ℕ → Vec) (dp rec : Vec)
    (n : ℕ) (h : Vec) (xs : List Vec) :
    scanCell c gen ⟨some dp, some rec, n⟩ h xs =
      ((maskedScan c dp rec h xs).1, (maskedScan c dp rec h xs).2,
        ⟨some dp, some rec, n⟩) := by
  induction xs generalizing h with
  | nil => simp [scanCell, maskedScan]
  | cons x xs ih => simp [scanCell, maskedScan, simpleRNNCellCall_cached, ih]

/-- C8: one outer `SimpleRNN.call` under training with both dropout rates in
`(0, 1)` clears the cached masks, draws exactly two fresh masks at the first
timestep (the stream advances from `prev.rng` to `prev.rng + 2` and no
further), and multiplies *every* timestep by those same two masks — the run
equals the fixed-mask scan `maskedScan`.  The result depends on the previous
call's cache only through the stream position, so a new outer call uses
fresh draws, never the masks cached by the previous call. -/
theorem simpleRNN_dropout_masks_once_per_call (c : SimpleRNNCellP)
    (gen : ℕ → Vec) (prev : CellCache) (xs : List Vec) (h0 : Vec)
    (hd : 0 < c.dropout ∧ c.dropout < 1)
    (hr : 0 < c.recurrent_dropout ∧ c.recurrent_dropout < 1)
    (hxs : xs ≠ []) :
    simpleRNNLayerCall c gen prev xs h0 =
      ((maskedScan c (gen prev.rng) (gen (prev.rng + 1)) h0 xs).1,
        (maskedScan c (gen prev.rng) (gen (prev.rng + 1)) h0 xs).2,
        ⟨some (gen prev.rng), some (gen (prev.rng + 1)), prev.rng + 2⟩) := by
  cases xs with
  | nil => exact absurd rfl hxs
  | cons x xs =>
      simp [simpleRNNLayerCall, scanCell, maskedScan,
        simpleRNNCellCall_generates c gen prev.rng x h0 hd hr, scanCell_cached]

/-- Witness for C8: a two-timestep run of a concrete cell; both timesteps
multiply by the same drawn masks `[3]` and `[4]`, and the previous call's
cached masks `[9]` are discarded. -/
theorem simpleRNN_dropout_masks_once_per_call_witness :
    simpleRNNLayerCall
        { units := 1, activation := id, use_bias := false, kernel := [[1]],
          recurrent_kernel := [[1]], bias := [],
          dropout := 1 / 2, recurrent_dropout := 1 / 2 }
        (fun i => [(i : ℚ)]) ⟨some [9], some [9], 3⟩ [[1], [1]] [2] =
      ([[11], [47]], [47], ⟨some [3], some [4], 5⟩) := by
  rw [simpleRNN_dropout_masks_once_per_call _ _ _ _ _
    ⟨by norm_num, by norm_num⟩ ⟨by norm_num, by norm_num⟩ (by simp)]
  norm_num [maskedScan, stepWithMasks, matVec, mulVec, dotVec, addVec]

/-- C9 counterexample: the feature row `[1, -1]` is not all-zero (so the
claim marks it valid), yet its feature sum is `0 = mask_value`, so the
derived mask of `get_constants` marks it *invalid*. -/
theorem derived_mask_not_feature_test :
    specMaskValid 0 [(1 : ℚ), -1] = true ∧
      getConstantsMaskContext 0 [[(1 : ℚ), -1]] none = [0] := by
  refine ⟨by decide, ?_⟩
  norm_num [getConstantsMaskContext, derivedContextMask]

/-- C9 (amended): the derived context mask marks position `t` valid exactly
when the *sum* of the context's features at `t` differs from `mask_value`
(lines 2177-2179, 6118-6120). -/
theorem derived_mask_valid_iff_sum_ne (mask_value : ℚ) (context : List Vec)
    (t : ℕ) (h : t < context.length) :
    (getConstantsMaskContext mask_value context none).getD t 0 ≠ 0 ↔
      (context.getD t []).sum ≠ mask_value := by
  unfold getConstantsMaskContext derivedContextMask
  rw [List.getD_eq_getElem?_getD, List.getElem?_map,
    List.getD_eq_getElem?_getD, List.getElem?_eq_getElem h]
  by_cases hs : (context[t]).sum = mask_value <;> simp [hs]

/-- Witness for C9 (amended) at a concrete context and mask value. -/
theorem derived_mask_valid_iff_sum_ne_witness :
    (getConstantsMaskContext (5 : ℚ) [[(2 : ℚ), 2]] none).getD 0 0 ≠ 0 ↔
      (([[(2 : ℚ), 2]] : List Vec).getD 0 []).sum ≠ 5 :=
  derived_mask_valid_iff_sum_ne 5 [[(2 : ℚ), 2]] 0 (by decide)

end KerasRecurrent
